import Mathlib

/-!
Verification of the snippet-execution engine of the `code_executor` plugin
(`main.py`, function `_execute_code_safely` and its inner worker `run_code`).

The engine runs one code string with stdout/stderr redirected into in-memory
buffers, builds a fresh execution namespace per call, diffs the output
directory before/after, and returns a result dictionary
`{success, output, error, file_paths}`.  The dynamic `exec` call itself is
abstracted as an `ExecOutcome`: either the snippet terminated normally
(with the text it wrote, the final contents of the `FILES_TO_SEND` list and
of the output directory, and the names it bound), or it raised an uncaught
exception of class `Exception` (the class caught by the `except Exception:`
clause at main.py line 759), with the text written so far and the
`traceback.format_exc()` text.  Everything the Python code does around that
call is translated directly below.
-/

/-- A Python `str`: a sequence of Unicode code points.  Python strings may
contain lone surrogates (code points 0xD800-0xDFFF), which are exactly the
characters `str.encode('utf-8')` rejects, so we model text as a list of
code points rather than as a Lean `String`. -/
abbrev PyStr := List Nat

/-- A code point survives `encode('utf-8')`: anything except a surrogate. -/
def utf8EncodableB (c : Nat) : Bool :=
  decide (c < 55296) || decide (57344 ≤ c)

/-- Inject a Lean string (always surrogate-free) as a Python string. -/
def pyStr (s : String) : PyStr := s.data.map Char.toNat

/-- Lines 747-753 of main.py: try `output_content.encode('utf-8')`; only on
`UnicodeEncodeError` re-encode with `errors='ignore'`, which drops the
unencodable characters. -/
def cleanIfNeeded (s : PyStr) : PyStr :=
  if s.all utf8EncodableB then s else s.filter utf8EncodableB

/-- Lines 763-770 of main.py: the failure path checks the captured output
and the traceback text inside one `try`, and cleans both if either fails
to encode. -/
def cleanPairIfNeeded (out tb : PyStr) : PyStr × PyStr :=
  if out.all utf8EncodableB && tb.all utf8EncodableB then (out, tb)
  else (out.filter utf8EncodableB, tb.filter utf8EncodableB)

/-- Outcome of the dynamic `exec(code_to_run, exec_globals)` call
(main.py line 720), together with the post-`exec` state the surrounding
code reads:

* `normal stdout stderr explicitSend filesAfter snippetBinds`: the snippet
  terminated; `stdout`/`stderr` are the buffer contents, `explicitSend`
  the final `FILES_TO_SEND` list, `filesAfter` the directory listing after
  the run, `snippetBinds` the names the snippet bound in the namespace.
* `raised stdoutSoFar stderr traceback explicitSend filesAfter`: the
  snippet raised an uncaught exception of class `Exception`; `traceback`
  is the `traceback.format_exc()` text (the full diagnostic trace,
  including the snippet frame), and `explicitSend` / `filesAfter` record
  what the snippet had nevertheless done to the send list and the output
  directory before failing. -/
inductive ExecOutcome where
  | normal (stdout : PyStr) (stderr : PyStr) (explicitSend : List String)
      (filesAfter : List String) (snippetBinds : List String)
  | raised (stdoutSoFar : PyStr) (stderr : PyStr) (traceback : PyStr)
      (explicitSend : List String) (filesAfter : List String)
deriving DecidableEq, Repr

/-- True exactly on the `normal` constructor. -/
def ExecOutcome.isNormal : ExecOutcome → Bool
  | .normal _ _ _ _ _ => true
  | .raised _ _ _ _ _ => false

/-- The result dictionary built by `run_code` / `_execute_code_safely`:
`{"success": ..., "output": ..., "error": ..., "file_paths": ...}`.
`output` and `error` are `str` or `None` in the Python code, hence
`Option PyStr` here. -/
structure ExecResult where
  success : Bool
  output : Option PyStr
  error : Option PyStr
  file_paths : List String
deriving DecidableEq, Repr

/-- `os.path.join(file_output_dir, f)` for a bare file name `f`. -/
def pathJoin (dir f : String) : String := dir ++ "/" ++ f

/-- Lines 735-737 / 742-744 of main.py: `files_after - files_before` on
sets of names, each joined with the output directory.  `set()` collapses
duplicates (a directory listing has none anyway); Python set iteration
order is unspecified, so one fixed order is chosen here. -/
def newFilePaths (dir : String) (before after : List String) : List String :=
  ((after.dedup).filter (fun f => decide (f ∉ before))).map (fun f => pathJoin dir f)

/-- Lines 730-744 of main.py: if `files_to_send_explicitly` is non-empty,
copy it verbatim and extend it with the newly generated paths not already
present; otherwise use the directory diff alone. -/
def collectFiles (dir : String) (before explicitSend after : List String) : List String :=
  let newPaths := newFilePaths dir before after
  if explicitSend.isEmpty then newPaths
  else explicitSend ++ newPaths.filter (fun p => decide (p ∉ explicitSend))

/-- The worker `run_code` (main.py lines 607-778), given the pre-run
directory listing `before` and the abstract outcome of the `exec` call.
The normal path returns success with the (encoding-cleaned) captured
stdout and the collected file list; the `except Exception:` path returns
failure with the traceback text and the stdout captured before the
failure, and an empty file list.  The function is total: no outcome makes
it raise. -/
def run_code (dir : String) (before : List String) (oc : ExecOutcome) : ExecResult :=
  match oc with
  | .normal stdout _stderr explicitSend filesAfter _binds =>
      { success := true
        output := some (cleanIfNeeded stdout)
        error := none
        file_paths := collectFiles dir before explicitSend filesAfter }
  | .raised stdoutSoFar _stderr tb _explicitSend _filesAfter =>
      let cleaned := cleanPairIfNeeded stdoutSoFar tb
      { success := false
        output := some cleaned.1
        error := some cleaned.2
        file_paths := [] }

/-- Line 32 of main.py: `self.config.get("timeout_seconds", 90)`. -/
def getTimeoutSeconds (cfg : Option Nat) : Nat := cfg.getD 90

/-- Line 788 of main.py: the f-string
`f"代码执行超时（超过 {self.timeout_seconds} 秒）"`. -/
def timeoutMessage (t : Nat) : PyStr :=
  pyStr ("代码执行超时（超过 " ++ toString t ++ " 秒）")

/-- `_execute_code_safely` (main.py lines 780-789): race the worker against
`asyncio.wait_for` with timeout `t`.  `timedOut` abstracts whether the
wall-clock timeout expired before the worker finished; if so the synthetic
timeout result is returned (note `"output": None`), otherwise the worker's
result is returned unchanged. -/
def execute_code_safely (t : Nat) (timedOut : Bool) (dir : String)
    (before : List String) (oc : ExecOutcome) : ExecResult :=
  if timedOut then
    { success := false
      output := none
      error := some (timeoutMessage t)
      file_paths := [] }
  else run_code dir before oc

/-- Identity of an object bound to `sys.stdout` / `sys.stderr`: either one
of the process's real stream objects or an in-memory `io.StringIO`. -/
inductive StreamTarget where
  | real (id : Nat)
  | buffer (id : Nat)
deriving DecidableEq, Repr

/-- The process-level stream state `run_code` manipulates: the current
bindings of `sys.stdout` / `sys.stderr` and the text that has actually
reached the real stdout / stderr devices. -/
structure StreamWorld where
  sysStdout : StreamTarget
  sysStderr : StreamTarget
  realOut : PyStr
  realErr : PyStr
deriving DecidableEq, Repr

/-- One write the snippet performs through `print` or `sys.stderr.write`
(`true` selects stderr).  Text reaches a real device only when the
corresponding `sys` binding currently points at a real stream; text sent
to a buffer stays in memory. -/
def writeStream (w : StreamWorld) (wr : Bool × PyStr) : StreamWorld :=
  match wr with
  | (false, t) =>
      match w.sysStdout with
      | .real _ => { w with realOut := w.realOut ++ t }
      | .buffer _ => w
  | (true, t) =>
      match w.sysStderr with
      | .real _ => { w with realErr := w.realErr ++ t }
      | .buffer _ => w

/-- Line 615 of main.py: `sys.stdout, sys.stderr = output_buffer, error_buffer`. -/
def capturedWorld (w : StreamWorld) : StreamWorld :=
  { w with sysStdout := .buffer 0, sysStderr := .buffer 1 }

/-- The stream effect of one `run_code` call (main.py lines 608-778):
save the old bindings, redirect both streams into fresh buffers, perform
the snippet's writes, and — on the return path and the exception path
alike — restore the saved bindings in the `finally` block (line 774). -/
def run_code_streams (w : StreamWorld) (writes : List (Bool × PyStr))
    (oc : ExecOutcome) : StreamWorld :=
  let oldOut := w.sysStdout
  let oldErr := w.sysStderr
  let w1 := capturedWorld w
  let w2 := writes.foldl writeStream w1
  let w3 :=
    match oc with
    | .normal _ _ _ _ _ => w2
    | .raised _ _ _ _ _ => w2
  { w3 with sysStdout := oldOut, sysStderr := oldErr }

/-- Keys of the dict literal at main.py lines 617-624:
`{'__builtins__', 'print', 'SAVE_DIR', 'FILES_TO_SEND', 'img_url', 'io'}`. -/
def baseNamespaceKeys : List String :=
  ["__builtins__", "print", "SAVE_DIR", "FILES_TO_SEND", "img_url", "io"]

/-- The keys of the execution namespace as handed to `exec`: the dict
literal's keys plus the aliases of whichever optional libraries imported
successfully (lines 626-708; each import is attempted independently). -/
def initNamespaceKeys (availLibKeys : List String) : List String :=
  baseNamespaceKeys ++ availLibKeys

/-- The namespace keys after `exec` returns: top-level assignments in the
snippet add their names to `exec_globals`. -/
def finalNamespaceKeys (availLibKeys snippetBinds : List String) : List String :=
  initNamespaceKeys availLibKeys ++ snippetBinds

/-- The namespace a second invocation starts from.  Line 617 of main.py
builds `exec_globals` as a fresh dict literal inside `run_code`; nothing
read from any earlier call flows into it, so the previous run's final
namespace (the second argument) is ignored. -/
def secondRunInitialKeys (availLibKeys : List String)
    (_firstRunFinalKeys : List String) : List String :=
  initNamespaceKeys availLibKeys

theorem filter_of_all (s : PyStr) (h : s.all utf8EncodableB = true) :
    s.filter utf8EncodableB = s :=
  List.filter_eq_self.mpr (by simpa [List.all_eq_true] using h)

theorem cleanIfNeeded_eq_filter (s : PyStr) :
    cleanIfNeeded s = s.filter utf8EncodableB := by
  unfold cleanIfNeeded
  by_cases h : s.all utf8EncodableB = true
  · rw [if_pos h, filter_of_all s h]
  · rw [if_neg h]

theorem cleanPairIfNeeded_eq_filter (out tb : PyStr) :
    cleanPairIfNeeded out tb =
      (out.filter utf8EncodableB, tb.filter utf8EncodableB) := by
  unfold cleanPairIfNeeded
  by_cases h1 : out.all utf8EncodableB = true
  · by_cases h2 : tb.all utf8EncodableB = true
    · simp [h1, h2, filter_of_all out h1, filter_of_all tb h2]
    · simp [h1, h2]
  · simp [h1]

theorem all_filter_self (s : PyStr) :
    (s.filter utf8EncodableB).all utf8EncodableB = true := by
  simp [List.all_eq_true]

theorem pyStr_append (a b : String) : pyStr (a ++ b) = pyStr a ++ pyStr b := by
  simp [pyStr, String.data_append]

/-- C1 (counterexample): the claim says the failure result's output equals
exactly what the snippet wrote to the captured stdout.  A snippet that
prints a lone surrogate (code point 0xD800) before failing gets that
character dropped by the encoding-clean step at main.py lines 763-770, so
the output field differs from the text written. -/
theorem runner_failure_exact_text_fails :
    (run_code "/out" [] (.raised [55296] [] (pyStr "TB") [] [])).output
      ≠ some ([55296] : PyStr) := by decide

/-- C1 (amended): for every execution that raises an uncaught error, the
Runner returns success=false, error text equal to the full diagnostic
trace and output equal to the stdout captured before the failure — each
with the UTF-8-unrepresentable characters dropped, hence unchanged
whenever the text is representable — with an empty file list; `run_code`
is a total function, so it never raises past its boundary. -/
theorem runner_failure_reports_trace (dir : String) (before : List String)
    (out err tb : PyStr) (exA afA : List String) :
    run_code dir before (.raised out err tb exA afA) =
      { success := false
        output := some (out.filter utf8EncodableB)
        error := some (tb.filter utf8EncodableB)
        file_paths := [] } := by
  simp [run_code, cleanPairIfNeeded_eq_filter]

/-- C4 (counterexample): the claim says the output field equals exactly
the text written.  Writing the lone surrogate 0xD800 and terminating
normally yields an output field with the character dropped (main.py lines
747-753), not the text as written. -/
theorem normal_exact_text_fails :
    (run_code "/out" [] (.normal [55296] [] [] [] [])).output
      ≠ some ([55296] : PyStr) := by decide

/-- C4 (amended): for all code that writes text to stdout and terminates
normally, the result has success=true, error absent, and output equal to
the text written with UTF-8-unrepresentable characters dropped (exactly
the text whenever it is representable); in particular the snippet
printing "7" yields success=true, output "7\n" and an empty file list. -/
theorem normal_run_result (dir : String) (before : List String)
    (out err : PyStr) (expl after binds : List String) :
    (run_code dir before (.normal out err expl after binds)).success = true
    ∧ (run_code dir before (.normal out err expl after binds)).error = none
    ∧ (run_code dir before (.normal out err expl after binds)).output
        = some (out.filter utf8EncodableB)
    ∧ run_code "/out" [] (.normal (pyStr "7\n") [] [] [] [])
        = { success := true, output := some (pyStr "7\n")
            error := none, file_paths := [] } :=
  ⟨rfl, rfl, by simp [run_code, cleanIfNeeded_eq_filter], by decide⟩

/-- C9: a failing execution reports an empty produced-file list, whatever
the snippet had already appended to FILES_TO_SEND and whatever files it
had already created in the output directory: the except-branch at main.py
line 772 returns file_paths=[] unconditionally. -/
theorem failure_empty_file_list (dir : String) (before : List String)
    (out err tb : PyStr) (exA afA : List String) :
    (run_code dir before (.raised out err tb exA afA)).file_paths = [] := rfl

/-- C10: the stderr buffer is captured separately and never read: the
result is identical whatever the snippet wrote to stderr, the output field
comes from the stdout buffer alone, and the error field (when set) is only
the traceback text. -/
theorem stderr_discarded (dir : String) (before : List String)
    (out e1 e2 tb : PyStr) (expl after binds exA afA : List String) :
    run_code dir before (.normal out e1 expl after binds)
        = run_code dir before (.normal out e2 expl after binds)
    ∧ run_code dir before (.raised out e1 tb exA afA)
        = run_code dir before (.raised out e2 tb exA afA)
    ∧ (run_code dir before (.normal out e1 expl after binds)).output
        = some (out.filter utf8EncodableB)
    ∧ (run_code dir before (.raised out e1 tb exA afA)).error
        = some (tb.filter utf8EncodableB) :=
  ⟨rfl, rfl, by simp [run_code, cleanIfNeeded_eq_filter],
   by simp [run_code, cleanPairIfNeeded_eq_filter]⟩

/-- C7: every text field the Runner returns consists only of
UTF-8-encodable characters (the cleaning step either leaves encodable
text alone or filters the offending characters out), the Runner is a
total function (snippet text never crashes the reporting path), and the
success flag depends only on whether the snippet terminated normally,
never on whether the text needed normalizing — so the normalization is
never surfaced as a distinct error kind. -/
theorem captured_text_always_encodable (dir : String) (before : List String)
    (oc : ExecOutcome) :
    ((run_code dir before oc).output.getD []).all utf8EncodableB = true
    ∧ ((run_code dir before oc).error.getD []).all utf8EncodableB = true
    ∧ (run_code dir before oc).success = oc.isNormal := by
  cases oc with
  | normal out err expl after binds =>
      exact ⟨by simp [run_code, cleanIfNeeded_eq_filter, all_filter_self],
             by simp [run_code], rfl⟩
  | raised out err tb exA afA =>
      exact ⟨by simp [run_code, cleanPairIfNeeded_eq_filter, all_filter_self],
             by simp [run_code, cleanPairIfNeeded_eq_filter, all_filter_self], rfl⟩

/-- C2 (counterexample): the claim says the captured-stdout field is
present on every path including timeout, but the synthetic timeout result
at main.py line 788 sets `"output": None`. -/
theorem timeout_output_absent :
    (execute_code_safely 90 true "/out" [] (.normal [] [] [] [] [])).output
      = none := by decide

/-- C2 (amended): for every result returned by the engine's public call —
normal completion, snippet failure, and timeout — the error field is set
if and only if the success field is false; the captured-stdout field is
present exactly when the call did not time out (it is absent on the
timeout path, present otherwise, possibly empty). -/
theorem result_fields_invariant (t : Nat) (timedOut : Bool) (dir : String)
    (before : List String) (oc : ExecOutcome) :
    ((execute_code_safely t timedOut dir before oc).error.isSome
        = !(execute_code_safely t timedOut dir before oc).success)
    ∧ ((execute_code_safely t timedOut dir before oc).output.isSome
        = !timedOut) := by
  cases timedOut with
  | true => simp [execute_code_safely]
  | false => cases oc <;> simp [execute_code_safely, run_code]

/-- C6: when the timeout expires, the engine returns the synthetic result
with success=false, no produced files, an absent stdout field, and an
error text that names the configured duration (the decimal rendering of
the timeout appears inside the message); the configured duration defaults
to 90 when the configuration supplies none (main.py line 32). -/
theorem timeout_synthetic_result (t : Nat) (dir : String)
    (before : List String) (oc : ExecOutcome) :
    execute_code_safely t true dir before oc
      = { success := false, output := none
          error := some (timeoutMessage t), file_paths := [] }
    ∧ (∃ pre post, timeoutMessage t = pre ++ pyStr (toString t) ++ post)
    ∧ getTimeoutSeconds none = 90 := by
  refine ⟨rfl, ⟨pyStr "代码执行超时（超过 ", pyStr " 秒）", ?_⟩, rfl⟩
  simp [timeoutMessage, pyStr_append]

theorem pathJoin_inj (dir : String) :
    Function.Injective (fun f => pathJoin dir f) := by
  intro a b hab
  have h : (dir ++ "/" ++ a).data = (dir ++ "/" ++ b).data :=
    congrArg String.data hab
  rw [String.data_append, String.data_append] at h
  exact String.ext (List.append_cancel_left h)

theorem newFilePaths_nodup (dir : String) (before after : List String) :
    (newFilePaths dir before after).Nodup :=
  List.Nodup.map (pathJoin_inj dir)
    (List.Nodup.filter _ (List.nodup_dedup after))

/-- C3 (counterexample): the claim says each path appears exactly once in
the produced-file list, but the explicit-send list is copied verbatim at
main.py line 733 with no internal de-duplication, so a snippet that
appends the same path twice to FILES_TO_SEND gets it reported twice. -/
theorem explicit_duplicate_kept :
    (run_code "/out" [] (.normal [] [] ["/a", "/a"] [] [])).file_paths
      = ["/a", "/a"] := by decide

/-- C3 (amended): for every execution that completes normally, the
produced-file list contains exactly the union of the post-run
explicit-send entries and the directory-diff paths, the explicit entries
come first (the list starts with the explicit-send list verbatim), and
the list has no duplicates provided the explicit-send list itself has
none — duplicates between the explicit list and the directory diff are
always merged into one entry, but internal duplicates of the explicit
list are kept as given. -/
theorem produced_files_union (dir : String) (before : List String)
    (out err : PyStr) (expl after binds : List String) (h : expl.Nodup) :
    (∀ p, p ∈ (run_code dir before (.normal out err expl after binds)).file_paths
        ↔ (p ∈ expl ∨ p ∈ newFilePaths dir before after))
    ∧ (run_code dir before (.normal out err expl after binds)).file_paths.take
        expl.length = expl
    ∧ (run_code dir before (.normal out err expl after binds)).file_paths.Nodup := by
  have hfp : (run_code dir before (.normal out err expl after binds)).file_paths
      = collectFiles dir before expl after := rfl
  rw [hfp]
  unfold collectFiles
  by_cases he : expl.isEmpty
  · have hnil : expl = [] := List.isEmpty_iff.mp he
    subst hnil
    simp [newFilePaths_nodup]
  · simp only [he, if_neg, Bool.false_eq_true, if_false]
    refine ⟨?_, ?_, ?_⟩
    · intro p
      simp only [List.mem_append, List.mem_filter, decide_eq_true_eq]
      constructor
      · rintro (hp | ⟨hp, _⟩)
        · exact Or.inl hp
        · exact Or.inr hp
      · rintro (hp | hp)
        · exact Or.inl hp
        · by_cases hpe : p ∈ expl
          · exact Or.inl hpe
          · exact Or.inr ⟨hp, hpe⟩
    · exact List.take_left expl _
    · rw [List.nodup_append]
      refine ⟨h, List.Nodup.filter _ (newFilePaths_nodup dir before after), ?_⟩
      intro a ha hb
      have := (List.mem_filter.mp hb).2
      simp only [decide_eq_true_eq] at this
      exact this ha

/-- C3 witness: the amended statement instantiated at a run whose snippet
put "/a" on the explicit-send list and created file "f" in the output
directory; the hypothesis (the explicit list has no internal duplicates)
is discharged by computation. -/
theorem produced_files_union_instance :
    (run_code "/out" [] (.normal [] [] ["/a"] ["f"] [])).file_paths.Nodup :=
  (produced_files_union "/out" [] [] [] ["/a"] ["f"] [] (by decide)).2.2

theorem writeStream_buffer (w : StreamWorld) (i j : Nat) (wr : Bool × PyStr)
    (h1 : w.sysStdout = .buffer i) (h2 : w.sysStderr = .buffer j) :
    writeStream w wr = w := by
  obtain ⟨b, t⟩ := wr
  cases b <;> simp [writeStream, h1, h2]

theorem foldl_write_fixed (writes : List (Bool × PyStr)) :
    ∀ (w : StreamWorld) (i j : Nat), w.sysStdout = .buffer i →
      w.sysStderr = .buffer j → writes.foldl writeStream w = w := by
  induction writes with
  | nil => intro w i j _ _; rfl
  | cons wr rest ih =>
      intro w i j h1 h2
      rw [List.foldl_cons, writeStream_buffer w i j wr h1 h2]
      exact ih w i j h1 h2

/-- C5: one `run_code` call leaves the process stream state exactly as it
found it — the `sys.stdout` / `sys.stderr` bindings are restored by the
finally block on the normal and the exception exit path alike, no text
the snippet writes during execution reaches the real streams (while the
buffers are installed every write leaves the real-device text unchanged),
and a repeated call composed with the first still returns the original
state. -/
theorem streams_restored (w : StreamWorld) (writes : List (Bool × PyStr))
    (oc : ExecOutcome) :
    run_code_streams w writes oc = w
    ∧ (writes.foldl writeStream (capturedWorld w)).realOut = w.realOut
    ∧ (writes.foldl writeStream (capturedWorld w)).realErr = w.realErr
    ∧ run_code_streams (run_code_streams w writes oc) writes oc = w := by
  have hfold : writes.foldl writeStream (capturedWorld w) = capturedWorld w :=
    foldl_write_fixed writes (capturedWorld w) 0 1 rfl rfl
  have hone : run_code_streams w writes oc = w := by
    unfold run_code_streams
    cases oc <;> (simp only [hfold]; cases w; rfl)
  refine ⟨hone, ?_, ?_, by rw [hone, hone]⟩ <;> rw [hfold] <;> simp [capturedWorld]

/-- C8: a name bound by the first run's snippet that is not among the keys
the engine itself injects (the dict-literal keys and the available library
aliases) is not visible in the second run's namespace: the second call
builds `exec_globals` as a fresh dict literal, ignoring the first run's
final namespace. -/
theorem fresh_namespace_no_leak (avail binds : List String) (n : String)
    (h1 : n ∈ binds) (h2 : n ∉ baseNamespaceKeys) (h3 : n ∉ avail) :
    n ∈ finalNamespaceKeys avail binds
    ∧ n ∉ secondRunInitialKeys avail (finalNamespaceKeys avail binds) := by
  constructor
  · exact List.mem_append.mpr (Or.inr h1)
  · intro hmem
    rcases List.mem_append.mp hmem with hmem | hmem
    · exact h2 hmem
    · exact h3 hmem

/-- C8 witness: a snippet that bound "x" in run 1 (with numpy available as
"np") leaves "x" visible in run 1's final namespace but absent from the
namespace run 2 starts from. -/
theorem fresh_namespace_no_leak_instance :
    "x" ∈ finalNamespaceKeys ["np"] ["x"]
    ∧ "x" ∉ secondRunInitialKeys ["np"] (finalNamespaceKeys ["np"] ["x"]) :=
  fresh_namespace_no_leak ["np"] ["x"] "x" (by decide) (by decide) (by decide)
